import Mathlib

/-!
Verification of the PAC script decider (net/proxy/proxy_script_decider.h).

The repository sources contain only the class declaration
(src/net/proxy/proxy_script_decider.h); the implementation file is not part
of the sources. Following the header declarations and their comments, the
missing method bodies are modelled from the specification (spec.md). Every
definition whose body is not given by the header carries a doc comment
starting with the words Modelled from the spec.

The decider is a single-threaded, cooperatively scheduled state machine.
Asynchronous completions (timer, fetchers, validator) are collapsed into
synchronous steps: one step of the machine is one iteration of the DoLoop
dispatch together with the immediate delivery of the completion result.
The two fetchers and the validator are modelled as deterministic oracles.
-/

/-- Network error codes are plain integers; 0 is success (net OK). -/
def OK : Int := 0

/-- Sentinel returned by Start when the machine continues asynchronously. -/
def ERR_IO_PENDING : Int := -1

/-- Modelled from the spec: the distinguished synchronous error returned by
Start when the fallback source list is empty (spec section 7, ConfigError,
named there the no PAC source failure). The spec fixes no numeric value;
any distinguished negative value serves. -/
def ERR_NO_PAC_SOURCE : Int := -2

/-- Minimal model of GURL: a URL is identified with its spec string. The
empty spec models the default-constructed, invalid URL (GURL()). -/
structure GURL where
  spec : String
deriving DecidableEq, Repr

/-- The default-constructed URL, GURL(). -/
def GURL.empty : GURL := { spec := "" }

/-- Validity of a GURL, abstracted as nonemptiness of its spec. A valid
GURL always carries a scheme, hence is absolute. -/
def GURL.is_valid (u : GURL) : Bool := u.spec ≠ ""

/-- Modelled from the spec: the canonical WPAD URL literal (spec section 6). -/
def kWpadUrl : GURL := { spec := "http://wpad/wpad.dat" }

/-- Modelled from the spec: the ProxyConfig fields the decider consumes
(net/proxy/proxy_config.h is not among the sources): the auto-detect flag,
the optional custom PAC URL (invalid URL meaning absent), the mandatory-PAC
flag, the manual proxy rules (empty list meaning none), and a passthrough
component standing for all remaining proxy-config fields (spec section 3). -/
structure ProxyConfig where
  auto_detect : Bool
  pac_url : GURL
  pac_mandatory : Bool
  proxy_rules : List String
  passthrough : Nat
deriving DecidableEq, Repr

/-- A custom PAC URL is present when the stored URL is valid. -/
def ProxyConfig.has_pac_url (c : ProxyConfig) : Bool := c.pac_url.is_valid

/-- The default-constructed ProxyConfig. -/
def ProxyConfig.initial : ProxyConfig :=
  { auto_detect := false, pac_url := GURL.empty, pac_mandatory := false,
    proxy_rules := [], passthrough := 0 }

/-- PacSource::Type (proxy_script_decider.h lines 83-87). -/
inductive PacSourceType where
  | WPAD_DHCP
  | WPAD_DNS
  | CUSTOM
deriving DecidableEq, Repr

/-- PacSource (proxy_script_decider.h lines 82-100): one candidate PAC
acquisition attempt. Per the header comment on the url member (line 99),
the url is empty unless the type is CUSTOM. -/
structure PacSource where
  type : PacSourceType
  url : GURL
deriving DecidableEq, Repr

/-- Default PacSource used as the out-of-range default of list lookups;
never denoted in reachable fetching or verifying states. -/
def defaultPacSource : PacSource := { type := PacSourceType.WPAD_DHCP, url := GURL.empty }

/-- ProxyResolverScriptData: validated script input handed to the resolver,
either script text (UTF-16 in the source, a string here) or a script URL. -/
inductive ProxyResolverScriptData where
  | FromUTF16 (text : String)
  | FromURL (url : GURL)
deriving DecidableEq, Repr

/-- State (proxy_script_decider.h lines 104-112). -/
inductive ProxyScriptDecider.State where
  | STATE_NONE
  | STATE_WAIT
  | STATE_WAIT_COMPLETE
  | STATE_FETCH_PAC_SCRIPT
  | STATE_FETCH_PAC_SCRIPT_COMPLETE
  | STATE_VERIFY_PAC_SCRIPT
  | STATE_VERIFY_PAC_SCRIPT_COMPLETE
deriving DecidableEq, Repr

/-- Modelled from the spec: BuildPacSourcesFallbackList (declared at
proxy_script_decider.h line 115; the implementation file is absent).
Spec section 3: if auto-detect is on, append WPAD_DHCP then WPAD_DNS; if a
custom PAC URL is present, append CUSTOM carrying that URL. Per the header
comments (lines 32-36 and 99) the url member of the WPAD entries is empty
at construction. -/
def BuildPacSourcesFallbackList (config : ProxyConfig) : List PacSource :=
  (if config.auto_detect = true then
    [{ type := PacSourceType.WPAD_DHCP, url := GURL.empty },
     { type := PacSourceType.WPAD_DNS, url := GURL.empty }]
   else []) ++
  (if config.has_pac_url = true then
    [{ type := PacSourceType.CUSTOM, url := config.pac_url }]
   else [])

/-- Modelled from the spec: DetermineURL (declared at line 140; spec
section 4.3): CUSTOM yields the source URL, WPAD_DNS yields the canonical
WPAD URL, WPAD_DHCP leaves the out-parameter unchanged (its effective URL
is learned from the DHCP fetcher only after completion). The function
returns the updated effective_pac_url out-parameter. -/
def DetermineURL (pac_source : PacSource) (effective_pac_url : GURL) : GURL :=
  match pac_source.type with
  | PacSourceType.WPAD_DHCP => effective_pac_url
  | PacSourceType.WPAD_DNS => kWpadUrl
  | PacSourceType.CUSTOM => pac_source.url

/-- GetStartState (declared at lines 136-138): fetching is skipped when the
resolver does not expect PAC bytes, so the start state is the fetch state
exactly when fetch_pac_bytes holds and the verify state otherwise. -/
def GetStartState (fetch_pac_bytes : Bool) : ProxyScriptDecider.State :=
  if fetch_pac_bytes = true then ProxyScriptDecider.State.STATE_FETCH_PAC_SCRIPT
  else ProxyScriptDecider.State.STATE_VERIFY_PAC_SCRIPT

/-- Modelled from the spec: the three external collaborators of the decider
(spec section 4.4) as deterministic oracles. fetch stands for
ProxyScriptFetcher::Fetch and yields a status and the fetched text for a
URL; dhcp_fetch stands for DhcpProxyScriptFetcher::Fetch and yields a
status, the fetched text, and the DHCP-discovered PAC URL; validate stands
for the validator (handing the script data to the ProxyResolver) and
yields a status. -/
structure Collaborators where
  fetch : GURL → Int × String
  dhcp_fetch : Int × String × GURL
  validate : ProxyResolverScriptData → Int

/-- ProxyScriptDecider state (fields from proxy_script_decider.h lines
149-176). The callback, the log and the collaborator pointers are kept
outside the structure: collaborators are passed to each step, the callback
invocation is recorded as an emitted event. The input config is retained so
that unrecognized fields pass through into the effective config (spec
sections 3 and 6). -/
structure ProxyScriptDecider where
  config : ProxyConfig
  current_pac_source_index : Nat
  pac_script : String
  pac_mandatory : Bool
  pac_sources : List PacSource
  next_state : ProxyScriptDecider.State
  fetch_pac_bytes : Bool
  wait_delay : Int
  effective_config : ProxyConfig
  script_data : Option ProxyResolverScriptData
deriving DecidableEq, Repr

/-- current_pac_source (declared at lines 142-143): the source currently
being fetched or tested. -/
def ProxyScriptDecider.current_pac_source (d : ProxyScriptDecider) : PacSource :=
  d.pac_sources.getD d.current_pac_source_index defaultPacSource

/-- Modelled from the spec: the script data handed to the validator for the
current source (spec section 4.3 VERIFY): the fetched bytes when
fetch_pac_bytes holds, otherwise the source URL directly. -/
def ProxyScriptDecider.currentScriptData (d : ProxyScriptDecider) : ProxyResolverScriptData :=
  if d.fetch_pac_bytes = true then ProxyResolverScriptData.FromUTF16 d.pac_script
  else ProxyResolverScriptData.FromURL (DetermineURL d.current_pac_source GURL.empty)

/-- Modelled from the spec: the effective config produced on success (spec
sections 3, 4.3 and 6): the input config with the manual proxy rules
stripped, pac_url set to the effective URL of the winning source (for
WPAD_DHCP the URL reported by the DHCP fetcher), auto_detect resolved
(true exactly for the WPAD sources), pac_mandatory preserved, and every
other field passed through untouched. -/
def successEffectiveConfig (c : Collaborators) (config : ProxyConfig)
    (pac_mandatory : Bool) (pac_source : PacSource) : ProxyConfig :=
  { config with
    proxy_rules := [],
    pac_url :=
      match pac_source.type with
      | PacSourceType.WPAD_DHCP => c.dhcp_fetch.2.2
      | _ => DetermineURL pac_source GURL.empty,
    auto_detect :=
      match pac_source.type with
      | PacSourceType.CUSTOM => false
      | _ => true,
    pac_mandatory := pac_mandatory }

/-- Modelled from the spec: TryToFallbackPacSource (declared at lines
130-134; spec section 4.3): advance current_pac_source_index; if the new
index is past the end of pac_sources there is nothing left to try and the
original error is returned; otherwise rewind next_state to the start state
and return OK. In the exhausted branch next_state is left at STATE_NONE,
mirroring DoLoop, which clears next_state before each dispatch so that a
handler returning a terminal status exits the loop. -/
def TryToFallbackPacSource (d : ProxyScriptDecider) (error : Int) :
    ProxyScriptDecider × Int :=
  if d.pac_sources.length ≤ d.current_pac_source_index + 1 then
    ({ d with current_pac_source_index := d.current_pac_source_index + 1,
              next_state := ProxyScriptDecider.State.STATE_NONE }, error)
  else
    ({ d with current_pac_source_index := d.current_pac_source_index + 1,
              next_state := GetStartState d.fetch_pac_bytes }, OK)

/-- Observable calls issued by the decider: a script fetch for a URL, a
DHCP script fetch, a validation, and the invocation of the completion
callback with a terminal result (spec section 4.5 event boundaries). -/
inductive NetLogEvent where
  | FetchEvent (url : GURL)
  | DhcpFetchEvent
  | VerifyEvent (script_data : ProxyResolverScriptData)
  | CallbackEvent (result : Int)
deriving DecidableEq, Repr

/-- Whether an event is the completion callback invocation. -/
def NetLogEvent.isCallback : NetLogEvent → Bool
  | NetLogEvent.CallbackEvent _ => true
  | _ => false

/-- Whether an event is a call into one of the two fetchers. -/
def NetLogEvent.isFetchCall : NetLogEvent → Bool
  | NetLogEvent.FetchEvent _ => true
  | NetLogEvent.DhcpFetchEvent => true
  | _ => false

/-- Number of callback invocations recorded in a trace. -/
def countCallback (evs : List NetLogEvent) : Nat :=
  (evs.filter NetLogEvent.isCallback).length

/-- Number of fetcher calls recorded in a trace. -/
def countFetchEvents (evs : List NetLogEvent) : Nat :=
  (evs.filter NetLogEvent.isFetchCall).length

/-- A machine configuration: the decider state, the result value threaded
through DoLoop, and the trace of observable events so far. -/
structure Machine where
  decider : ProxyScriptDecider
  result : Int
  events : List NetLogEvent

/-- Modelled from the spec: DoWait (declared at line 121; spec section 4.3
WAIT): arm the single-shot timer when wait_delay is positive; the timer
firing delivers result 0 to WAIT_COMPLETE. The suspension is collapsed
into the synchronous transition to WAIT_COMPLETE with result OK. -/
def DoWait (d : ProxyScriptDecider) : ProxyScriptDecider × Int :=
  ({ d with next_state := ProxyScriptDecider.State.STATE_WAIT_COMPLETE }, OK)

/-- Modelled from the spec: DoWaitComplete (declared at line 122; spec
section 4.3 WAIT_COMPLETE): set next_state to the start state. -/
def DoWaitComplete (d : ProxyScriptDecider) : ProxyScriptDecider × Int :=
  ({ d with next_state := GetStartState d.fetch_pac_bytes }, OK)

/-- Modelled from the spec: DoFetchPacScript (declared at line 124; spec
section 4.3 FETCH): for WPAD_DHCP invoke the DHCP fetcher, otherwise
invoke the script fetcher with the URL computed by DetermineURL; the
fetched text lands in pac_script and the completion result is delivered to
FETCH_COMPLETE. Returns the updated decider, the delivered result and the
emitted fetch event. -/
def DoFetchPacScript (c : Collaborators) (d : ProxyScriptDecider) :
    ProxyScriptDecider × Int × NetLogEvent :=
  match d.current_pac_source.type with
  | PacSourceType.WPAD_DHCP =>
      ({ d with next_state := ProxyScriptDecider.State.STATE_FETCH_PAC_SCRIPT_COMPLETE,
                pac_script := c.dhcp_fetch.2.1 },
       c.dhcp_fetch.1,
       NetLogEvent.DhcpFetchEvent)
  | _ =>
      ({ d with next_state := ProxyScriptDecider.State.STATE_FETCH_PAC_SCRIPT_COMPLETE,
                pac_script := (c.fetch (DetermineURL d.current_pac_source GURL.empty)).2 },
       (c.fetch (DetermineURL d.current_pac_source GURL.empty)).1,
       NetLogEvent.FetchEvent (DetermineURL d.current_pac_source GURL.empty))

/-- Modelled from the spec: DoFetchPacScriptComplete (declared at line 125;
spec section 4.3 FETCH_COMPLETE): on error fall back to the next source,
on success proceed to VERIFY. -/
def DoFetchPacScriptComplete (d : ProxyScriptDecider) (result : Int) :
    ProxyScriptDecider × Int :=
  if result = OK then
    ({ d with next_state := ProxyScriptDecider.State.STATE_VERIFY_PAC_SCRIPT }, result)
  else TryToFallbackPacSource d result

/-- Modelled from the spec: DoVerifyPacScript (declared at line 127; spec
section 4.3 VERIFY): hand the script data for the current source to the
validator; its completion result is delivered to VERIFY_COMPLETE. Returns
the updated decider, the delivered result and the emitted verify event. -/
def DoVerifyPacScript (c : Collaborators) (d : ProxyScriptDecider) :
    ProxyScriptDecider × Int × NetLogEvent :=
  ({ d with next_state := ProxyScriptDecider.State.STATE_VERIFY_PAC_SCRIPT_COMPLETE },
   c.validate d.currentScriptData,
   NetLogEvent.VerifyEvent d.currentScriptData)

/-- Modelled from the spec: DoVerifyPacScriptComplete (declared at line
128; spec section 4.3 VERIFY_COMPLETE): on error fall back to the next
source; on success store the validated script data, populate the effective
config from the winning source, and finish at STATE_NONE. -/
def DoVerifyPacScriptComplete (c : Collaborators) (d : ProxyScriptDecider)
    (result : Int) : ProxyScriptDecider × Int :=
  if result = OK then
    ({ d with next_state := ProxyScriptDecider.State.STATE_NONE,
              script_data := some d.currentScriptData,
              effective_config :=
                successEffectiveConfig c d.config d.pac_mandatory d.current_pac_source },
     OK)
  else TryToFallbackPacSource d result

/-- Modelled from the spec: the exit of one DoLoop iteration after a
completion handler ran. DoLoop clears next_state before each dispatch, so a
handler that left next_state at STATE_NONE terminates the loop; DidComplete
then invokes the stored callback once with the terminal result (spec
section 4.3 and the DidComplete and DoCallback declarations at lines 119
and 146). Otherwise the loop continues with the returned result. -/
def completeStep (p : ProxyScriptDecider × Int) (m : Machine) : Machine :=
  if p.1.next_state = ProxyScriptDecider.State.STATE_NONE then
    { decider := p.1, result := p.2,
      events := m.events ++ [NetLogEvent.CallbackEvent p.2] }
  else
    { decider := p.1, result := p.2, events := m.events }

/-- Modelled from the spec: one iteration of the DoLoop dispatch (declared
at line 118; spec section 4.3), with asynchronous completions delivered
immediately. At STATE_NONE the machine is terminal and nothing happens. -/
def DoStep (c : Collaborators) (m : Machine) : Machine :=
  match m.decider.next_state with
  | ProxyScriptDecider.State.STATE_NONE => m
  | ProxyScriptDecider.State.STATE_WAIT =>
      { decider := (DoWait m.decider).1, result := (DoWait m.decider).2,
        events := m.events }
  | ProxyScriptDecider.State.STATE_WAIT_COMPLETE =>
      { decider := (DoWaitComplete m.decider).1,
        result := (DoWaitComplete m.decider).2, events := m.events }
  | ProxyScriptDecider.State.STATE_FETCH_PAC_SCRIPT =>
      { decider := (DoFetchPacScript c m.decider).1,
        result := (DoFetchPacScript c m.decider).2.1,
        events := m.events ++ [(DoFetchPacScript c m.decider).2.2] }
  | ProxyScriptDecider.State.STATE_FETCH_PAC_SCRIPT_COMPLETE =>
      completeStep (DoFetchPacScriptComplete m.decider m.result) m
  | ProxyScriptDecider.State.STATE_VERIFY_PAC_SCRIPT =>
      { decider := (DoVerifyPacScript c m.decider).1,
        result := (DoVerifyPacScript c m.decider).2.1,
        events := m.events ++ [(DoVerifyPacScript c m.decider).2.2] }
  | ProxyScriptDecider.State.STATE_VERIFY_PAC_SCRIPT_COMPLETE =>
      completeStep (DoVerifyPacScriptComplete c m.decider m.result) m

/-- Run the machine for a bounded number of DoLoop iterations. The bound
models the event loop driving the decider; once the machine reaches
STATE_NONE further iterations change nothing. -/
def RunSteps (c : Collaborators) : Nat → Machine → Machine
  | 0, m => m
  | n + 1, m => RunSteps c n (DoStep c m)

/-- The decider as constructed (proxy_script_decider.h lines 52-54):
resting at STATE_NONE with an empty source list. -/
def initialDecider : ProxyScriptDecider :=
  { config := ProxyConfig.initial, current_pac_source_index := 0,
    pac_script := "", pac_mandatory := false, pac_sources := [],
    next_state := ProxyScriptDecider.State.STATE_NONE, fetch_pac_bytes := false,
    wait_delay := 0, effective_config := ProxyConfig.initial, script_data := none }

/-- Modelled from the spec: the decider state right after a successful
Start (spec section 4.2): inputs recorded, pac_mandatory stored, the
fallback list built, the current index at zero, a negative wait delay
clamped to zero, and the machine about to enter WAIT. -/
def startedDecider (config : ProxyConfig) (wait_delay : Int)
    (fetch_pac_bytes : Bool) : ProxyScriptDecider :=
  { config := config, current_pac_source_index := 0, pac_script := "",
    pac_mandatory := config.pac_mandatory,
    pac_sources := BuildPacSourcesFallbackList config,
    next_state := ProxyScriptDecider.State.STATE_WAIT,
    fetch_pac_bytes := fetch_pac_bytes,
    wait_delay := if wait_delay < 0 then 0 else wait_delay,
    effective_config := ProxyConfig.initial, script_data := none }

/-- Modelled from the spec: Start (declared at lines 69-72; spec section
4.2): build the fallback source list; when it is empty fail synchronously
with the no PAC source error and never start the machine; otherwise return
the in-progress sentinel together with the started machine, which the
event loop drives through RunSteps. -/
def Start (config : ProxyConfig) (wait_delay : Int) (fetch_pac_bytes : Bool) :
    Int × Machine :=
  if BuildPacSourcesFallbackList config = [] then
    (ERR_NO_PAC_SOURCE,
     { decider := initialDecider, result := ERR_NO_PAC_SOURCE, events := [] })
  else
    (ERR_IO_PENDING,
     { decider := startedDecider config wait_delay fetch_pac_bytes,
       result := OK, events := [] })

/-- Status of the fetch attempt an oracle yields for one source: the DHCP
fetcher status for WPAD_DHCP, the script fetcher status at the URL from
DetermineURL otherwise. Proof-side characterization of DoFetchPacScript. -/
def fetchResult (c : Collaborators) (src : PacSource) : Int :=
  match src.type with
  | PacSourceType.WPAD_DHCP => c.dhcp_fetch.1
  | _ => (c.fetch (DetermineURL src GURL.empty)).1

/-- Text the fetch attempt yields for one source. Proof-side
characterization of DoFetchPacScript. -/
def fetchedText (c : Collaborators) (src : PacSource) : String :=
  match src.type with
  | PacSourceType.WPAD_DHCP => c.dhcp_fetch.2.1
  | _ => (c.fetch (DetermineURL src GURL.empty)).2

/-- Event the fetch attempt for one source emits. Proof-side
characterization of DoFetchPacScript. -/
def fetchEventOf (src : PacSource) : NetLogEvent :=
  match src.type with
  | PacSourceType.WPAD_DHCP => NetLogEvent.DhcpFetchEvent
  | _ => NetLogEvent.FetchEvent (DetermineURL src GURL.empty)

/-- Script data the validator receives for one source: the fetched text in
byte-fetching mode, the source URL otherwise. Proof-side characterization
of currentScriptData at the VERIFY state. -/
def scriptDataAfter (c : Collaborators) (fetch_pac_bytes : Bool)
    (src : PacSource) : ProxyResolverScriptData :=
  if fetch_pac_bytes = true then ProxyResolverScriptData.FromUTF16 (fetchedText c src)
  else ProxyResolverScriptData.FromURL (DetermineURL src GURL.empty)

/-- Terminal status of the attempt on one source: the fetch error when
bytes are fetched and the fetch fails, otherwise the validator status. The
attempt on the source succeeds exactly when this is OK. -/
def sourceAttemptError (c : Collaborators) (fetch_pac_bytes : Bool)
    (src : PacSource) : Int :=
  if fetch_pac_bytes = true ∧ fetchResult c src ≠ OK then fetchResult c src
  else c.validate (scriptDataAfter c fetch_pac_bytes src)

theorem runSteps_zero (c : Collaborators) (m : Machine) : RunSteps c 0 m = m := rfl

theorem runSteps_succ (c : Collaborators) (n : Nat) (m : Machine) :
    RunSteps c (n + 1) m = RunSteps c n (DoStep c m) := rfl

theorem runSteps_add (c : Collaborators) (a b : Nat) (m : Machine) :
    RunSteps c (a + b) m = RunSteps c b (RunSteps c a m) := by
  induction a generalizing m with
  | zero => simp [runSteps_zero]
  | succ n ih =>
      have h1 : n + 1 + b = (n + b) + 1 := by omega
      rw [h1, runSteps_succ, runSteps_succ, ih]

theorem doStep_none (c : Collaborators) (m : Machine)
    (h : m.decider.next_state = ProxyScriptDecider.State.STATE_NONE) :
    DoStep c m = m := by
  simp [DoStep, h]

theorem runSteps_none (c : Collaborators) (k : Nat) (m : Machine)
    (h : m.decider.next_state = ProxyScriptDecider.State.STATE_NONE) :
    RunSteps c k m = m := by
  induction k with
  | zero => rfl
  | succ n ih => rw [runSteps_succ, doStep_none c m h, ih]

theorem runSteps_pres (c : Collaborators) (P : Machine → Prop)
    (hP : ∀ m, P m → P (DoStep c m)) :
    ∀ (k : Nat) (m : Machine), P m → P (RunSteps c k m) := by
  intro k
  induction k with
  | zero => intro m h; exact h
  | succ n ih => intro m h; rw [runSteps_succ]; exact ih (DoStep c m) (hP m h)

theorem getStartState_ne_none (b : Bool) :
    GetStartState b ≠ ProxyScriptDecider.State.STATE_NONE := by
  cases b <;> simp [GetStartState]

theorem doFetchPacScript_char (c : Collaborators) (d : ProxyScriptDecider) :
    DoFetchPacScript c d =
      ({ d with next_state := ProxyScriptDecider.State.STATE_FETCH_PAC_SCRIPT_COMPLETE,
                pac_script := fetchedText c d.current_pac_source },
       fetchResult c d.current_pac_source,
       fetchEventOf d.current_pac_source) := by
  cases h : d.current_pac_source.type <;>
    simp [DoFetchPacScript, fetchResult, fetchedText, fetchEventOf, h]

theorem countCallback_append (a b : List NetLogEvent) :
    countCallback (a ++ b) = countCallback a + countCallback b := by
  simp [countCallback, List.filter_append]

theorem countFetchEvents_append (a b : List NetLogEvent) :
    countFetchEvents (a ++ b) = countFetchEvents a + countFetchEvents b := by
  simp [countFetchEvents, List.filter_append]

theorem getD_mem_of_lt {α : Type} :
    ∀ (l : List α) (i : Nat) (dfl : α), i < l.length → l.getD i dfl ∈ l := by
  intro l
  induction l with
  | nil => intro i dfl h; simp at h
  | cons x xs ih =>
      intro i dfl h
      cases i with
      | zero => simp [List.getD]
      | succ n =>
          have hn : n < xs.length := by simpa using h
          have := ih n dfl hn
          simp [List.getD] at this ⊢
          exact Or.inr this

/-- C1. BuildPacSourcesFallbackList returns exactly the ordered list: when
auto-detect is enabled a WPAD_DHCP entry followed by a WPAD_DNS entry, then
when a custom PAC URL is present a CUSTOM entry carrying that URL; DHCP
strictly precedes DNS, CUSTOM is always last, and no other entries appear. -/
theorem buildPacSources_ordered (config : ProxyConfig) :
    (config.auto_detect = true → config.has_pac_url = true →
      BuildPacSourcesFallbackList config =
        [{ type := PacSourceType.WPAD_DHCP, url := GURL.empty },
         { type := PacSourceType.WPAD_DNS, url := GURL.empty },
         { type := PacSourceType.CUSTOM, url := config.pac_url }]) ∧
    (config.auto_detect = true → config.has_pac_url = false →
      BuildPacSourcesFallbackList config =
        [{ type := PacSourceType.WPAD_DHCP, url := GURL.empty },
         { type := PacSourceType.WPAD_DNS, url := GURL.empty }]) ∧
    (config.auto_detect = false → config.has_pac_url = true →
      BuildPacSourcesFallbackList config =
        [{ type := PacSourceType.CUSTOM, url := config.pac_url }]) ∧
    (config.auto_detect = false → config.has_pac_url = false →
      BuildPacSourcesFallbackList config = []) := by
  refine ⟨?_, ?_, ?_, ?_⟩ <;> intro h1 h2 <;> simp [BuildPacSourcesFallbackList, h1, h2]

theorem buildPacSources_ordered_witness :
    BuildPacSourcesFallbackList
        { auto_detect := true, pac_url := { spec := "http://h/p" },
          pac_mandatory := false, proxy_rules := [], passthrough := 0 } =
      [{ type := PacSourceType.WPAD_DHCP, url := GURL.empty },
       { type := PacSourceType.WPAD_DNS, url := GURL.empty },
       { type := PacSourceType.CUSTOM, url := { spec := "http://h/p" } }] :=
  (buildPacSources_ordered _).1 rfl (by decide)

/-- C2. The source list is empty exactly when neither auto-detect nor a
custom PAC URL is set; in that case Start fails synchronously with the
distinguished no PAC source error without running the machine, so no
fetcher, validator or callback event is ever recorded; otherwise Start
returns the in-progress sentinel. -/
theorem start_no_pac_source (config : ProxyConfig) (wd : Int) (fpb : Bool) :
    (BuildPacSourcesFallbackList config = [] ↔
      config.auto_detect = false ∧ config.has_pac_url = false) ∧
    (config.auto_detect = false → config.has_pac_url = false →
      (Start config wd fpb).1 = ERR_NO_PAC_SOURCE ∧
      ∀ (c : Collaborators) (fuel : Nat),
        (RunSteps c fuel (Start config wd fpb).2).events = []) ∧
    (BuildPacSourcesFallbackList config ≠ [] →
      (Start config wd fpb).1 = ERR_IO_PENDING) := by
  have hiff : BuildPacSourcesFallbackList config = [] ↔
      config.auto_detect = false ∧ config.has_pac_url = false := by
    cases h1 : config.auto_detect <;> cases h2 : config.has_pac_url <;>
      simp [BuildPacSourcesFallbackList, h1, h2]
  refine ⟨hiff, ?_, ?_⟩
  · intro h1 h2
    have hempty : BuildPacSourcesFallbackList config = [] := hiff.mpr ⟨h1, h2⟩
    constructor
    · simp [Start, hempty]
    · intro c fuel
      have hm : (Start config wd fpb).2 =
          { decider := initialDecider, result := ERR_NO_PAC_SOURCE, events := [] } := by
        simp [Start, hempty]
      rw [hm, runSteps_none]
      rfl
  · intro hne
    simp [Start, hne]

theorem start_no_pac_source_witness :
    (Start { auto_detect := false, pac_url := { spec := "" },
             pac_mandatory := false, proxy_rules := [], passthrough := 2 } 0 true).1 =
      ERR_NO_PAC_SOURCE :=
  ((start_no_pac_source _ 0 true).2.1 rfl (by decide)).1

/-- C3 counterexample. The claim states that a WPAD_DNS source carries the
canonical WPAD URL; but the WPAD_DNS entry the builder constructs for an
auto-detect config has an empty url, as the header comment on the url
member dictates (line 99: empty unless the type is CUSTOM). -/
theorem wpad_dns_url_empty_counterexample :
    (BuildPacSourcesFallbackList
        { auto_detect := true, pac_url := { spec := "" }, pac_mandatory := false,
          proxy_rules := [], passthrough := 0 }).getD 1 defaultPacSource =
      { type := PacSourceType.WPAD_DNS, url := GURL.empty } ∧
    GURL.empty ≠ kWpadUrl := by
  constructor
  · decide
  · decide

/-- C3 amended. For every PacSource constructed by the decider: a WPAD_DHCP
or WPAD_DNS source has an empty (absent) url at construction; the effective
URL DetermineURL derives for a WPAD_DNS source is the canonical WPAD URL
http://wpad/wpad.dat; a CUSTOM source carries the config PAC URL, which is
present and valid (hence absolute). -/
theorem pac_source_url_invariant (config : ProxyConfig) (s : PacSource)
    (hs : s ∈ BuildPacSourcesFallbackList config) :
    (s.type = PacSourceType.WPAD_DHCP → s.url = GURL.empty) ∧
    (s.type = PacSourceType.WPAD_DNS →
      s.url = GURL.empty ∧ ∀ u, DetermineURL s u = kWpadUrl) ∧
    (s.type = PacSourceType.CUSTOM →
      s.url = config.pac_url ∧ s.url.is_valid = true) := by
  simp [BuildPacSourcesFallbackList] at hs
  rcases hs with ⟨hauto, hcase⟩ | ⟨hpac, hcase⟩
  · rcases hcase with h | h <;> subst h <;>
      refine ⟨by simp, by simp [DetermineURL], by simp⟩
  · subst hcase
    refine ⟨by simp, by simp, ?_⟩
    intro _
    exact ⟨rfl, by simpa [ProxyConfig.has_pac_url] using hpac⟩

theorem pac_source_url_invariant_witness :
    ({ type := PacSourceType.CUSTOM, url := { spec := "http://h/p" } } : PacSource).url =
      ({ auto_detect := false, pac_url := { spec := "http://h/p" },
         pac_mandatory := false, proxy_rules := [], passthrough := 1 } : ProxyConfig).pac_url :=
  ((pac_source_url_invariant
      { auto_detect := false, pac_url := { spec := "http://h/p" },
        pac_mandatory := false, proxy_rules := [], passthrough := 1 }
      { type := PacSourceType.CUSTOM, url := { spec := "http://h/p" } }
      (by decide)).2.2 rfl).1

/-- C4. TryToFallbackPacSource advances the current index to its successor;
when the new index is past the end of the source list the original error is
returned unchanged, otherwise next_state is rewound to the start state
(fetch or verify according to fetch_pac_bytes) and OK is returned so the
loop continues with the next source. -/
theorem tryToFallback_spec (d : ProxyScriptDecider) (e : Int) :
    (TryToFallbackPacSource d e).1.current_pac_source_index =
      d.current_pac_source_index + 1 ∧
    (if d.pac_sources.length ≤ d.current_pac_source_index + 1 then
      (TryToFallbackPacSource d e).2 = e
     else
      (TryToFallbackPacSource d e).2 = OK ∧
      (TryToFallbackPacSource d e).1.next_state =
        (if d.fetch_pac_bytes = true then ProxyScriptDecider.State.STATE_FETCH_PAC_SCRIPT
         else ProxyScriptDecider.State.STATE_VERIFY_PAC_SCRIPT)) := by
  by_cases h : d.pac_sources.length ≤ d.current_pac_source_index + 1 <;>
    simp [TryToFallbackPacSource, GetStartState, h]

theorem countCallback_single (e : NetLogEvent) :
    countCallback [e] = if e.isCallback = true then 1 else 0 := by
  by_cases h : e.isCallback = true <;> simp [countCallback, List.filter, h]

theorem isCallback_fetchEventOf (src : PacSource) :
    (fetchEventOf src).isCallback = false := by
  cases h : src.type <;> simp [fetchEventOf, h, NetLogEvent.isCallback]

/-- Invariant behind C6: a trace holds at most one callback invocation, and
none at all while the machine has not reached the terminal state. -/
def CallbackInv (m : Machine) : Prop :=
  countCallback m.events ≤ 1 ∧
  (m.decider.next_state ≠ ProxyScriptDecider.State.STATE_NONE →
    countCallback m.events = 0)

theorem doStep_callbackInv (c : Collaborators) (m : Machine)
    (h : CallbackInv m) : CallbackInv (DoStep c m) := by
  obtain ⟨h1, h2⟩ := h
  cases hs : m.decider.next_state with
  | STATE_NONE => rw [doStep_none c m hs]; exact ⟨h1, h2⟩
  | STATE_WAIT =>
      have h0 : countCallback m.events = 0 := h2 (by rw [hs]; simp)
      constructor <;> simp [CallbackInv, DoStep, hs, DoWait, h0]
  | STATE_WAIT_COMPLETE =>
      have h0 : countCallback m.events = 0 := h2 (by rw [hs]; simp)
      constructor <;> simp [CallbackInv, DoStep, hs, DoWaitComplete, h0]
  | STATE_FETCH_PAC_SCRIPT =>
      have h0 : countCallback m.events = 0 := h2 (by rw [hs]; simp)
      constructor <;>
        simp [DoStep, hs, doFetchPacScript_char, countCallback_append,
              countCallback_single, isCallback_fetchEventOf, h0]
  | STATE_FETCH_PAC_SCRIPT_COMPLETE =>
      have h0 : countCallback m.events = 0 := h2 (by rw [hs]; simp)
      by_cases hn : (DoFetchPacScriptComplete m.decider m.result).1.next_state =
          ProxyScriptDecider.State.STATE_NONE <;>
        constructor <;>
          simp [DoStep, hs, completeStep, hn, countCallback_append,
                countCallback_single, NetLogEvent.isCallback, h0]
  | STATE_VERIFY_PAC_SCRIPT =>
      have h0 : countCallback m.events = 0 := h2 (by rw [hs]; simp)
      constructor <;>
        simp [DoStep, hs, DoVerifyPacScript, countCallback_append,
              countCallback_single, NetLogEvent.isCallback, h0]
  | STATE_VERIFY_PAC_SCRIPT_COMPLETE =>
      have h0 : countCallback m.events = 0 := h2 (by rw [hs]; simp)
      by_cases hn : (DoVerifyPacScriptComplete c m.decider m.result).1.next_state =
          ProxyScriptDecider.State.STATE_NONE <;>
        constructor <;>
          simp [DoStep, hs, completeStep, hn, countCallback_append,
                countCallback_single, NetLogEvent.isCallback, h0]

theorem start_callbackInv (config : ProxyConfig) (wd : Int) (fpb : Bool) :
    CallbackInv (Start config wd fpb).2 := by
  by_cases h : BuildPacSourcesFallbackList config = [] <;>
    constructor <;> simp [Start, h, countCallback]

/-- C6. The completion callback is invoked at most once per run: along
every prefix of every run the trace holds at most one callback event, and
while the machine has not reached the terminal state (in particular at the
point where a mid-flight decider is destroyed, after which no further step
runs on its behalf) the trace holds no callback event at all. -/
theorem callback_at_most_once (config : ProxyConfig) (c : Collaborators)
    (wd : Int) (fpb : Bool) (fuel : Nat) :
    countCallback (RunSteps c fuel (Start config wd fpb).2).events ≤ 1 ∧
    ((RunSteps c fuel (Start config wd fpb).2).decider.next_state ≠
        ProxyScriptDecider.State.STATE_NONE →
      countCallback (RunSteps c fuel (Start config wd fpb).2).events = 0) :=
  runSteps_pres c CallbackInv (doStep_callbackInv c) fuel _
    (start_callbackInv config wd fpb)

theorem countFetchEvents_single (e : NetLogEvent) :
    countFetchEvents [e] = if e.isFetchCall = true then 1 else 0 := by
  by_cases h : e.isFetchCall = true <;> simp [countFetchEvents, List.filter, h]

/-- Invariant behind C9: when bytes are not fetched the machine never sits
in a fetch state and the trace holds no fetcher call. -/
def NoFetchInv (m : Machine) : Prop :=
  m.decider.fetch_pac_bytes = false ∧
  m.decider.next_state ≠ ProxyScriptDecider.State.STATE_FETCH_PAC_SCRIPT ∧
  m.decider.next_state ≠ ProxyScriptDecider.State.STATE_FETCH_PAC_SCRIPT_COMPLETE ∧
  countFetchEvents m.events = 0

theorem doStep_noFetchInv (c : Collaborators) (m : Machine)
    (h : NoFetchInv m) : NoFetchInv (DoStep c m) := by
  obtain ⟨hf, hs1, hs2, he⟩ := h
  cases hs : m.decider.next_state with
  | STATE_NONE => rw [doStep_none c m hs]; exact ⟨hf, hs1, hs2, he⟩
  | STATE_WAIT =>
      refine ⟨?_, ?_, ?_, ?_⟩ <;> simp [DoStep, hs, DoWait, hf, he]
  | STATE_WAIT_COMPLETE =>
      refine ⟨?_, ?_, ?_, ?_⟩ <;>
        simp [DoStep, hs, DoWaitComplete, hf, GetStartState, he]
  | STATE_FETCH_PAC_SCRIPT => exact absurd hs hs1
  | STATE_FETCH_PAC_SCRIPT_COMPLETE => exact absurd hs hs2
  | STATE_VERIFY_PAC_SCRIPT =>
      refine ⟨?_, ?_, ?_, ?_⟩ <;>
        simp [DoStep, hs, DoVerifyPacScript, hf, countFetchEvents_append,
              countFetchEvents_single, NetLogEvent.isFetchCall, he]
  | STATE_VERIFY_PAC_SCRIPT_COMPLETE =>
      by_cases hr : m.result = OK
      · refine ⟨?_, ?_, ?_, ?_⟩ <;>
          simp [DoStep, hs, DoVerifyPacScriptComplete, hr, completeStep, hf,
                countFetchEvents_append, countFetchEvents_single,
                NetLogEvent.isFetchCall, he]
      · by_cases hx : m.decider.pac_sources.length ≤
            m.decider.current_pac_source_index + 1 <;>
          refine ⟨?_, ?_, ?_, ?_⟩ <;>
            simp [DoStep, hs, DoVerifyPacScriptComplete, hr, completeStep,
                  TryToFallbackPacSource, hx, hf, GetStartState,
                  countFetchEvents_append, countFetchEvents_single,
                  NetLogEvent.isFetchCall, he]

theorem start_noFetchInv (config : ProxyConfig) (wd : Int) :
    NoFetchInv (Start config wd false).2 := by
  by_cases h : BuildPacSourcesFallbackList config = [] <;>
    refine ⟨?_, ?_, ?_, ?_⟩ <;>
      simp [Start, h, initialDecider, startedDecider, countFetchEvents]

/-- C9. When fetch_pac_bytes is false the start state is the verify state
rather than the fetch state, and along every run started in that mode no
call into the script fetcher or the DHCP script fetcher is ever recorded:
only the validator (and the terminal callback) appear in the trace. -/
theorem no_fetch_when_not_fetching_bytes (config : ProxyConfig)
    (c : Collaborators) (wd : Int) (fuel : Nat) :
    GetStartState false = ProxyScriptDecider.State.STATE_VERIFY_PAC_SCRIPT ∧
    GetStartState true = ProxyScriptDecider.State.STATE_FETCH_PAC_SCRIPT ∧
    countFetchEvents (RunSteps c fuel (Start config wd false).2).events = 0 := by
  refine ⟨by simp [GetStartState], by simp [GetStartState], ?_⟩
  exact (runSteps_pres c NoFetchInv (doStep_noFetchInv c) fuel _
    (start_noFetchInv config wd)).2.2.2

/-- Invariant behind C10: away from the terminal state the current index
addresses a valid element of the source list. -/
def IndexInv (m : Machine) : Prop :=
  m.decider.next_state ≠ ProxyScriptDecider.State.STATE_NONE →
    m.decider.current_pac_source_index < m.decider.pac_sources.length

theorem doStep_indexInv (c : Collaborators) (m : Machine)
    (h : IndexInv m) : IndexInv (DoStep c m) := by
  cases hs : m.decider.next_state with
  | STATE_NONE => rw [doStep_none c m hs]; exact h
  | STATE_WAIT =>
      have hi := h (by rw [hs]; simp)
      simp [IndexInv, DoStep, hs, DoWait, hi]
  | STATE_WAIT_COMPLETE =>
      have hi := h (by rw [hs]; simp)
      simp [IndexInv, DoStep, hs, DoWaitComplete, hi]
  | STATE_FETCH_PAC_SCRIPT =>
      have hi := h (by rw [hs]; simp)
      simp [IndexInv, DoStep, hs, doFetchPacScript_char, hi]
  | STATE_FETCH_PAC_SCRIPT_COMPLETE =>
      have hi := h (by rw [hs]; simp)
      by_cases hr : m.result = OK
      · simp [IndexInv, DoStep, hs, DoFetchPacScriptComplete, hr, completeStep, hi]
      · by_cases hx : m.decider.pac_sources.length ≤
            m.decider.current_pac_source_index + 1 <;>
          simp [IndexInv, DoStep, hs, DoFetchPacScriptComplete, hr, completeStep,
                TryToFallbackPacSource, hx, getStartState_ne_none] <;>
          omega
  | STATE_VERIFY_PAC_SCRIPT =>
      have hi := h (by rw [hs]; simp)
      simp [IndexInv, DoStep, hs, DoVerifyPacScript, hi]
  | STATE_VERIFY_PAC_SCRIPT_COMPLETE =>
      have hi := h (by rw [hs]; simp)
      by_cases hr : m.result = OK
      · simp [IndexInv, DoStep, hs, DoVerifyPacScriptComplete, hr, completeStep, hi]
      · by_cases hx : m.decider.pac_sources.length ≤
            m.decider.current_pac_source_index + 1 <;>
          simp [IndexInv, DoStep, hs, DoVerifyPacScriptComplete, hr, completeStep,
                TryToFallbackPacSource, hx, getStartState_ne_none] <;>
          omega

theorem start_indexInv (config : ProxyConfig) (wd : Int) (fpb : Bool) :
    IndexInv (Start config wd fpb).2 := by
  by_cases h : BuildPacSourcesFallbackList config = []
  · intro hne
    simp [Start, h, initialDecider] at hne
  · intro _
    simp [Start, h, startedDecider]
    exact List.length_pos.mpr h

/-- The four states in which the decider is fetching or verifying. -/
def isActive : ProxyScriptDecider.State → Bool
  | ProxyScriptDecider.State.STATE_FETCH_PAC_SCRIPT => true
  | ProxyScriptDecider.State.STATE_FETCH_PAC_SCRIPT_COMPLETE => true
  | ProxyScriptDecider.State.STATE_VERIFY_PAC_SCRIPT => true
  | ProxyScriptDecider.State.STATE_VERIFY_PAC_SCRIPT_COMPLETE => true
  | _ => false

/-- C10. In every reachable machine state whose next_state is one of the
fetching or verifying states, the current source index lies strictly below
the length of the source list, so current_pac_source denotes an actual
element of the list. -/
theorem active_state_index_in_range (config : ProxyConfig) (c : Collaborators)
    (wd : Int) (fpb : Bool) (fuel : Nat)
    (h : isActive (RunSteps c fuel (Start config wd fpb).2).decider.next_state = true) :
    (RunSteps c fuel (Start config wd fpb).2).decider.current_pac_source_index <
      (RunSteps c fuel (Start config wd fpb).2).decider.pac_sources.length ∧
    (RunSteps c fuel (Start config wd fpb).2).decider.current_pac_source ∈
      (RunSteps c fuel (Start config wd fpb).2).decider.pac_sources := by
  have hne : (RunSteps c fuel (Start config wd fpb).2).decider.next_state ≠
      ProxyScriptDecider.State.STATE_NONE := by
    intro hcon
    rw [hcon] at h
    simp [isActive] at h
  have hlt := runSteps_pres c IndexInv (doStep_indexInv c) fuel _
    (start_indexInv config wd fpb) hne
  exact ⟨hlt, getD_mem_of_lt _ _ _ hlt⟩

theorem runSteps_two (c : Collaborators) (m : Machine) :
    RunSteps c 2 m = DoStep c (DoStep c m) := rfl

theorem runSteps_four (c : Collaborators) (m : Machine) :
    RunSteps c 4 m = DoStep c (DoStep c (DoStep c (DoStep c m))) := rfl

theorem step_wait (c : Collaborators) (m : Machine)
    (h : m.decider.next_state = ProxyScriptDecider.State.STATE_WAIT) :
    DoStep c m =
      ⟨{ m.decider with next_state := ProxyScriptDecider.State.STATE_WAIT_COMPLETE },
       OK, m.events⟩ := by
  simp [DoStep, h, DoWait]

theorem step_wait_complete (c : Collaborators) (m : Machine)
    (h : m.decider.next_state = ProxyScriptDecider.State.STATE_WAIT_COMPLETE) :
    DoStep c m =
      ⟨{ m.decider with next_state := GetStartState m.decider.fetch_pac_bytes },
       OK, m.events⟩ := by
  simp [DoStep, h, DoWaitComplete]

theorem step_fetch (c : Collaborators) (m : Machine)
    (h : m.decider.next_state = ProxyScriptDecider.State.STATE_FETCH_PAC_SCRIPT) :
    DoStep c m =
      ⟨{ m.decider with
           next_state := ProxyScriptDecider.State.STATE_FETCH_PAC_SCRIPT_COMPLETE,
           pac_script := fetchedText c m.decider.current_pac_source },
       fetchResult c m.decider.current_pac_source,
       m.events ++ [fetchEventOf m.decider.current_pac_source]⟩ := by
  simp [DoStep, h, doFetchPacScript_char]

theorem step_fetch_complete_ok (c : Collaborators) (m : Machine)
    (h : m.decider.next_state = ProxyScriptDecider.State.STATE_FETCH_PAC_SCRIPT_COMPLETE)
    (hr : m.result = OK) :
    DoStep c m =
      ⟨{ m.decider with next_state := ProxyScriptDecider.State.STATE_VERIFY_PAC_SCRIPT },
       OK, m.events⟩ := by
  simp [DoStep, h, DoFetchPacScriptComplete, hr, completeStep]

theorem step_fetch_complete_fail_stop (c : Collaborators) (m : Machine)
    (h : m.decider.next_state = ProxyScriptDecider.State.STATE_FETCH_PAC_SCRIPT_COMPLETE)
    (hr : m.result ≠ OK)
    (hx : m.decider.pac_sources.length ≤ m.decider.current_pac_source_index + 1) :
    DoStep c m =
      ⟨{ m.decider with
           current_pac_source_index := m.decider.current_pac_source_index + 1,
           next_state := ProxyScriptDecider.State.STATE_NONE },
       m.result, m.events ++ [NetLogEvent.CallbackEvent m.result]⟩ := by
  simp [DoStep, h, DoFetchPacScriptComplete, hr, TryToFallbackPacSource, hx, completeStep]

theorem step_fetch_complete_fail_next (c : Collaborators) (m : Machine)
    (h : m.decider.next_state = ProxyScriptDecider.State.STATE_FETCH_PAC_SCRIPT_COMPLETE)
    (hr : m.result ≠ OK)
    (hx : ¬ m.decider.pac_sources.length ≤ m.decider.current_pac_source_index + 1) :
    DoStep c m =
      ⟨{ m.decider with
           current_pac_source_index := m.decider.current_pac_source_index + 1,
           next_state := GetStartState m.decider.fetch_pac_bytes },
       OK, m.events⟩ := by
  simp [DoStep, h, DoFetchPacScriptComplete, hr, TryToFallbackPacSource, hx,
        completeStep, getStartState_ne_none]

theorem step_verify (c : Collaborators) (m : Machine)
    (h : m.decider.next_state = ProxyScriptDecider.State.STATE_VERIFY_PAC_SCRIPT) :
    DoStep c m =
      ⟨{ m.decider with
           next_state := ProxyScriptDecider.State.STATE_VERIFY_PAC_SCRIPT_COMPLETE },
       c.validate m.decider.currentScriptData,
       m.events ++ [NetLogEvent.VerifyEvent m.decider.currentScriptData]⟩ := by
  simp [DoStep, h, DoVerifyPacScript]

theorem step_verify_complete_ok (c : Collaborators) (m : Machine)
    (h : m.decider.next_state = ProxyScriptDecider.State.STATE_VERIFY_PAC_SCRIPT_COMPLETE)
    (hr : m.result = OK) :
    DoStep c m =
      ⟨{ m.decider with
           next_state := ProxyScriptDecider.State.STATE_NONE,
           script_data := some m.decider.currentScriptData,
           effective_config :=
             successEffectiveConfig c m.decider.config m.decider.pac_mandatory
               m.decider.current_pac_source },
       OK, m.events ++ [NetLogEvent.CallbackEvent OK]⟩ := by
  simp [DoStep, h, DoVerifyPacScriptComplete, hr, completeStep]

theorem step_verify_complete_fail_stop (c : Collaborators) (m : Machine)
    (h : m.decider.next_state = ProxyScriptDecider.State.STATE_VERIFY_PAC_SCRIPT_COMPLETE)
    (hr : m.result ≠ OK)
    (hx : m.decider.pac_sources.length ≤ m.decider.current_pac_source_index + 1) :
    DoStep c m =
      ⟨{ m.decider with
           current_pac_source_index := m.decider.current_pac_source_index + 1,
           next_state := ProxyScriptDecider.State.STATE_NONE },
       m.result, m.events ++ [NetLogEvent.CallbackEvent m.result]⟩ := by
  simp [DoStep, h, DoVerifyPacScriptComplete, hr, TryToFallbackPacSource, hx, completeStep]

theorem step_verify_complete_fail_next (c : Collaborators) (m : Machine)
    (h : m.decider.next_state = ProxyScriptDecider.State.STATE_VERIFY_PAC_SCRIPT_COMPLETE)
    (hr : m.result ≠ OK)
    (hx : ¬ m.decider.pac_sources.length ≤ m.decider.current_pac_source_index + 1) :
    DoStep c m =
      ⟨{ m.decider with
           current_pac_source_index := m.decider.current_pac_source_index + 1,
           next_state := GetStartState m.decider.fetch_pac_bytes },
       OK, m.events⟩ := by
  simp [DoStep, h, DoVerifyPacScriptComplete, hr, TryToFallbackPacSource, hx,
        completeStep, getStartState_ne_none]

theorem runSteps_peel_four (c : Collaborators) (m : Machine) :
    RunSteps c 4 m = RunSteps c 3 (DoStep c m) := rfl

theorem runSteps_peel_three (c : Collaborators) (m : Machine) :
    RunSteps c 3 m = RunSteps c 2 (DoStep c m) := rfl

theorem runSteps_peel_two (c : Collaborators) (m : Machine) :
    RunSteps c 2 m = RunSteps c 1 (DoStep c m) := rfl

theorem runSteps_peel_one (c : Collaborators) (m : Machine) :
    RunSteps c 1 m = DoStep c m := rfl

theorem attempt_ok_fetch (c : Collaborators) (src : PacSource)
    (hok : sourceAttemptError c true src = OK) : fetchResult c src = OK := by
  by_cases hf : fetchResult c src = OK
  · exact hf
  · exfalso
    have hform : sourceAttemptError c true src = fetchResult c src := by
      simp [sourceAttemptError, hf]
    rw [hform] at hok
    exact hf hok

theorem attempt_form_validate_true (c : Collaborators) (src : PacSource)
    (hf : fetchResult c src = OK) :
    sourceAttemptError c true src =
      c.validate (ProxyResolverScriptData.FromUTF16 (fetchedText c src)) := by
  simp [sourceAttemptError, hf, scriptDataAfter]

theorem attempt_form_validate_false (c : Collaborators) (src : PacSource) :
    sourceAttemptError c false src =
      c.validate (ProxyResolverScriptData.FromURL (DetermineURL src GURL.empty)) := by
  simp [sourceAttemptError, scriptDataAfter]

theorem round_success (c : Collaborators) (m : Machine)
    (hstart : m.decider.next_state = GetStartState m.decider.fetch_pac_bytes)
    (hok : sourceAttemptError c m.decider.fetch_pac_bytes
             m.decider.current_pac_source = OK) :
    ∃ used, used ≤ 4 ∧
      (RunSteps c used m).decider.next_state = ProxyScriptDecider.State.STATE_NONE ∧
      (RunSteps c used m).result = OK ∧
      (RunSteps c used m).decider.effective_config =
        successEffectiveConfig c m.decider.config m.decider.pac_mandatory
          m.decider.current_pac_source ∧
      ∃ evs, (RunSteps c used m).events =
        m.events ++ evs ++ [NetLogEvent.CallbackEvent OK] := by
  cases hb : m.decider.fetch_pac_bytes
  case false =>
    rw [hb] at hstart hok
    have hstart2 : m.decider.next_state =
        ProxyScriptDecider.State.STATE_VERIFY_PAC_SCRIPT := by
      simpa [GetStartState] using hstart
    have hval : c.validate (ProxyResolverScriptData.FromURL
        (DetermineURL m.decider.current_pac_source GURL.empty)) = OK := by
      rw [← attempt_form_validate_false]
      exact hok
    refine ⟨2, by omega, ?_⟩
    rw [runSteps_two, step_verify c m hstart2,
        step_verify_complete_ok c _ (by simp)
          (by simp [ProxyScriptDecider.currentScriptData, hb]; exact hval)]
    refine ⟨by simp, by simp, ?_, ?_⟩
    · simp [ProxyScriptDecider.current_pac_source]
    · exact ⟨[NetLogEvent.VerifyEvent m.decider.currentScriptData], by simp⟩
  case true =>
    rw [hb] at hstart hok
    have hstart2 : m.decider.next_state =
        ProxyScriptDecider.State.STATE_FETCH_PAC_SCRIPT := by
      simpa [GetStartState] using hstart
    have hf : fetchResult c m.decider.current_pac_source = OK :=
      attempt_ok_fetch c _ hok
    have hval : c.validate (ProxyResolverScriptData.FromUTF16
        (fetchedText c m.decider.current_pac_source)) = OK := by
      rw [← attempt_form_validate_true c _ hf]
      exact hok
    refine ⟨4, by omega, ?_⟩
    rw [runSteps_peel_four, step_fetch c m hstart2]
    rw [runSteps_peel_three]
    rw [step_fetch_complete_ok c _ (by simp) (by simpa using hf)]
    rw [runSteps_peel_two]
    rw [step_verify c _ (by simp)]
    rw [runSteps_peel_one]
    rw [step_verify_complete_ok c _ (by simp)
          (by simp [ProxyScriptDecider.currentScriptData, hb]; exact hval)]
    refine ⟨by simp, by simp, ?_, ?_⟩
    · simp [ProxyScriptDecider.current_pac_source]
    · exact ⟨[fetchEventOf m.decider.current_pac_source,
              NetLogEvent.VerifyEvent (ProxyResolverScriptData.FromUTF16
                (fetchedText c m.decider.current_pac_source))],
             by simp [ProxyScriptDecider.currentScriptData, hb]⟩

theorem round_fail_stop (c : Collaborators) (m : Machine)
    (hstart : m.decider.next_state = GetStartState m.decider.fetch_pac_bytes)
    (hfail : sourceAttemptError c m.decider.fetch_pac_bytes
               m.decider.current_pac_source ≠ OK)
    (hx : m.decider.pac_sources.length ≤ m.decider.current_pac_source_index + 1) :
    ∃ used, used ≤ 4 ∧
      (RunSteps c used m).decider.next_state = ProxyScriptDecider.State.STATE_NONE ∧
      (RunSteps c used m).result =
        sourceAttemptError c m.decider.fetch_pac_bytes m.decider.current_pac_source ∧
      ∃ evs, (RunSteps c used m).events =
        m.events ++ evs ++
          [NetLogEvent.CallbackEvent
            (sourceAttemptError c m.decider.fetch_pac_bytes
              m.decider.current_pac_source)] := by
  cases hb : m.decider.fetch_pac_bytes
  case false =>
    rw [hb] at hstart hfail
    have hstart2 : m.decider.next_state =
        ProxyScriptDecider.State.STATE_VERIFY_PAC_SCRIPT := by
      simpa [GetStartState] using hstart
    have hv : c.validate (ProxyResolverScriptData.FromURL
        (DetermineURL m.decider.current_pac_source GURL.empty)) ≠ OK := by
      rw [← attempt_form_validate_false]
      exact hfail
    refine ⟨2, by omega, ?_⟩
    rw [runSteps_peel_two, step_verify c m hstart2]
    rw [runSteps_peel_one]
    rw [step_verify_complete_fail_stop c _ (by simp)
          (by simp [ProxyScriptDecider.currentScriptData, hb]; exact hv)
          (by simpa using hx)]
    refine ⟨by simp, ?_, ?_⟩
    · simp [ProxyScriptDecider.currentScriptData, hb, attempt_form_validate_false]
    · exact ⟨[NetLogEvent.VerifyEvent m.decider.currentScriptData],
        by simp [ProxyScriptDecider.currentScriptData, hb, attempt_form_validate_false]⟩
  case true =>
    rw [hb] at hstart hfail
    have hstart2 : m.decider.next_state =
        ProxyScriptDecider.State.STATE_FETCH_PAC_SCRIPT := by
      simpa [GetStartState] using hstart
    by_cases hf : fetchResult c m.decider.current_pac_source = OK
    · have hv : c.validate (ProxyResolverScriptData.FromUTF16
          (fetchedText c m.decider.current_pac_source)) ≠ OK := by
        rw [← attempt_form_validate_true c _ hf]
        exact hfail
      refine ⟨4, by omega, ?_⟩
      rw [runSteps_peel_four, step_fetch c m hstart2]
      rw [runSteps_peel_three]
      rw [step_fetch_complete_ok c _ (by simp) (by simpa using hf)]
      rw [runSteps_peel_two]
      rw [step_verify c _ (by simp)]
      rw [runSteps_peel_one]
      rw [step_verify_complete_fail_stop c _ (by simp)
            (by simp [ProxyScriptDecider.currentScriptData, hb]; exact hv)
            (by simpa using hx)]
      refine ⟨by simp, ?_, ?_⟩
      · simp [ProxyScriptDecider.currentScriptData, hb,
              attempt_form_validate_true c _ hf]
      · exact ⟨[fetchEventOf m.decider.current_pac_source,
                NetLogEvent.VerifyEvent (ProxyResolverScriptData.FromUTF16
                  (fetchedText c m.decider.current_pac_source))],
          by simp [ProxyScriptDecider.currentScriptData, hb,
                   attempt_form_validate_true c _ hf]⟩
    · have hform : sourceAttemptError c true m.decider.current_pac_source =
          fetchResult c m.decider.current_pac_source := by
        simp [sourceAttemptError, hf]
      refine ⟨2, by omega, ?_⟩
      rw [runSteps_peel_two, step_fetch c m hstart2]
      rw [runSteps_peel_one]
      rw [step_fetch_complete_fail_stop c _ (by simp) (by simpa using hf)
            (by simpa using hx)]
      refine ⟨by simp, ?_, ?_⟩
      · simp [hform]
      · exact ⟨[fetchEventOf m.decider.current_pac_source], by simp [hform]⟩

theorem round_fail_next (c : Collaborators) (m : Machine)
    (hstart : m.decider.next_state = GetStartState m.decider.fetch_pac_bytes)
    (hfail : sourceAttemptError c m.decider.fetch_pac_bytes
               m.decider.current_pac_source ≠ OK)
    (hx : ¬ m.decider.pac_sources.length ≤ m.decider.current_pac_source_index + 1) :
    ∃ used, used ≤ 4 ∧
      (RunSteps c used m).decider.next_state =
        GetStartState m.decider.fetch_pac_bytes ∧
      (RunSteps c used m).decider.current_pac_source_index =
        m.decider.current_pac_source_index + 1 ∧
      (RunSteps c used m).decider.pac_sources = m.decider.pac_sources ∧
      (RunSteps c used m).decider.fetch_pac_bytes = m.decider.fetch_pac_bytes ∧
      (RunSteps c used m).decider.config = m.decider.config ∧
      (RunSteps c used m).decider.pac_mandatory = m.decider.pac_mandatory ∧
      (RunSteps c used m).result = OK ∧
      ∃ evs, (RunSteps c used m).events = m.events ++ evs := by
  cases hb : m.decider.fetch_pac_bytes
  case false =>
    rw [hb] at hstart hfail
    have hstart2 : m.decider.next_state =
        ProxyScriptDecider.State.STATE_VERIFY_PAC_SCRIPT := by
      simpa [GetStartState] using hstart
    have hv : c.validate (ProxyResolverScriptData.FromURL
        (DetermineURL m.decider.current_pac_source GURL.empty)) ≠ OK := by
      rw [← attempt_form_validate_false]
      exact hfail
    refine ⟨2, by omega, ?_⟩
    rw [runSteps_peel_two, step_verify c m hstart2]
    rw [runSteps_peel_one]
    rw [step_verify_complete_fail_next c _ (by simp)
          (by simp [ProxyScriptDecider.currentScriptData, hb]; exact hv)
          (by simpa using hx)]
    refine ⟨by simp [hb], by simp, by simp, by simp [hb], by simp, by simp, by simp, ?_⟩
    exact ⟨[NetLogEvent.VerifyEvent m.decider.currentScriptData], by simp⟩
  case true =>
    rw [hb] at hstart hfail
    have hstart2 : m.decider.next_state =
        ProxyScriptDecider.State.STATE_FETCH_PAC_SCRIPT := by
      simpa [GetStartState] using hstart
    by_cases hf : fetchResult c m.decider.current_pac_source = OK
    · have hv : c.validate (ProxyResolverScriptData.FromUTF16
          (fetchedText c m.decider.current_pac_source)) ≠ OK := by
        rw [← attempt_form_validate_true c _ hf]
        exact hfail
      refine ⟨4, by omega, ?_⟩
      rw [runSteps_peel_four, step_fetch c m hstart2]
      rw [runSteps_peel_three]
      rw [step_fetch_complete_ok c _ (by simp) (by simpa using hf)]
      rw [runSteps_peel_two]
      rw [step_verify c _ (by simp)]
      rw [runSteps_peel_one]
      rw [step_verify_complete_fail_next c _ (by simp)
            (by simp [ProxyScriptDecider.currentScriptData, hb]; exact hv)
            (by simpa using hx)]
      refine ⟨by simp [hb], by simp, by simp, by simp [hb], by simp, by simp, by simp, ?_⟩
      exact ⟨[fetchEventOf m.decider.current_pac_source,
              NetLogEvent.VerifyEvent (ProxyResolverScriptData.FromUTF16
                (fetchedText c m.decider.current_pac_source))],
        by simp [ProxyScriptDecider.currentScriptData, hb]⟩
    · refine ⟨2, by omega, ?_⟩
      rw [runSteps_peel_two, step_fetch c m hstart2]
      rw [runSteps_peel_one]
      rw [step_fetch_complete_fail_next c _ (by simp) (by simpa using hf)
            (by simpa using hx)]
      refine ⟨by simp [hb], by simp, by simp, by simp [hb], by simp, by simp, by simp, ?_⟩
      exact ⟨[fetchEventOf m.decider.current_pac_source], by simp⟩

theorem run_master_fail (c : Collaborators) :
    ∀ (k : Nat) (m : Machine),
      m.decider.next_state = GetStartState m.decider.fetch_pac_bytes →
      m.decider.current_pac_source_index < m.decider.pac_sources.length →
      m.decider.pac_sources.length - m.decider.current_pac_source_index ≤ k →
      (∀ j, m.decider.current_pac_source_index ≤ j →
            j < m.decider.pac_sources.length →
            sourceAttemptError c m.decider.fetch_pac_bytes
              (m.decider.pac_sources.getD j defaultPacSource) ≠ OK) →
      ∀ fuel, 4 * k ≤ fuel →
        (RunSteps c fuel m).decider.next_state = ProxyScriptDecider.State.STATE_NONE ∧
        (RunSteps c fuel m).result =
          sourceAttemptError c m.decider.fetch_pac_bytes
            (m.decider.pac_sources.getD
              (m.decider.pac_sources.length - 1) defaultPacSource) ∧
        ∃ evs, (RunSteps c fuel m).events =
          m.events ++ evs ++
            [NetLogEvent.CallbackEvent ((RunSteps c fuel m).result)] := by
  intro k
  induction k with
  | zero => intro m hstart hi hk hfail fuel hfuel; omega
  | succ k ih =>
      intro m hstart hi hk hfail fuel hfuel
      have hsrc : m.decider.current_pac_source =
          m.decider.pac_sources.getD m.decider.current_pac_source_index
            defaultPacSource := rfl
      have hfail_cur : sourceAttemptError c m.decider.fetch_pac_bytes
          m.decider.current_pac_source ≠ OK := by
        rw [hsrc]
        exact hfail _ le_rfl hi
      by_cases hx : m.decider.pac_sources.length ≤
          m.decider.current_pac_source_index + 1
      · obtain ⟨used, hused, hns, hres, evs, hevs⟩ :=
          round_fail_stop c m hstart hfail_cur hx
        have hfe : fuel = used + (fuel - used) := by omega
        rw [hfe, runSteps_add, runSteps_none c _ _ hns]
        have hlast : m.decider.current_pac_source_index =
            m.decider.pac_sources.length - 1 := by omega
        refine ⟨hns, ?_, ?_⟩
        · rw [hres, hsrc, hlast]
        · refine ⟨evs, ?_⟩
          rw [hevs, hres, hsrc, hlast]
      · obtain ⟨used, hused, hns, hidx, hsrcs, hfpb, hcfg, hman, hres, evs0, hevs0⟩ :=
          round_fail_next c m hstart hfail_cur hx
        set m2 := RunSteps c used m with hm2
        have h2start : m2.decider.next_state =
            GetStartState m2.decider.fetch_pac_bytes := by
          rw [hns, hfpb]
        have h2i : m2.decider.current_pac_source_index <
            m2.decider.pac_sources.length := by
          rw [hidx, hsrcs]
          omega
        have h2k : m2.decider.pac_sources.length -
            m2.decider.current_pac_source_index ≤ k := by
          rw [hidx, hsrcs]
          omega
        have h2fail : ∀ j, m2.decider.current_pac_source_index ≤ j →
            j < m2.decider.pac_sources.length →
            sourceAttemptError c m2.decider.fetch_pac_bytes
              (m2.decider.pac_sources.getD j defaultPacSource) ≠ OK := by
          intro j hj1 hj2
          rw [hfpb, hsrcs]
          rw [hidx] at hj1
          rw [hsrcs] at hj2
          exact hfail j (by omega) hj2
        have hfe : fuel = used + (fuel - used) := by omega
        have h2fuel : 4 * k ≤ fuel - used := by omega
        obtain ⟨hA, hB, evs1, hC⟩ := ih m2 h2start h2i h2k h2fail (fuel - used) h2fuel
        rw [hfe, runSteps_add, ← hm2]
        refine ⟨hA, ?_, ?_⟩
        · rw [hB, hfpb, hsrcs]
        · refine ⟨evs0 ++ evs1, ?_⟩
          rw [hC, hevs0]
          simp

theorem run_master_success (c : Collaborators) :
    ∀ (k : Nat) (m : Machine) (j : Nat),
      m.decider.next_state = GetStartState m.decider.fetch_pac_bytes →
      m.decider.current_pac_source_index ≤ j →
      j < m.decider.pac_sources.length →
      m.decider.pac_sources.length - m.decider.current_pac_source_index ≤ k →
      (∀ i, m.decider.current_pac_source_index ≤ i → i < j →
        sourceAttemptError c m.decider.fetch_pac_bytes
          (m.decider.pac_sources.getD i defaultPacSource) ≠ OK) →
      sourceAttemptError c m.decider.fetch_pac_bytes
        (m.decider.pac_sources.getD j defaultPacSource) = OK →
      ∀ fuel, 4 * k ≤ fuel →
        (RunSteps c fuel m).decider.next_state = ProxyScriptDecider.State.STATE_NONE ∧
        (RunSteps c fuel m).result = OK ∧
        (RunSteps c fuel m).decider.effective_config =
          successEffectiveConfig c m.decider.config m.decider.pac_mandatory
            (m.decider.pac_sources.getD j defaultPacSource) ∧
        ∃ evs, (RunSteps c fuel m).events =
          m.events ++ evs ++ [NetLogEvent.CallbackEvent OK] := by
  intro k
  induction k with
  | zero => intro m j hstart hij hj hk hfail hwin fuel hfuel; omega
  | succ k ih =>
      intro m j hstart hij hj hk hfail hwin fuel hfuel
      by_cases hcur : m.decider.current_pac_source_index = j
      · have hsrc : m.decider.current_pac_source =
            m.decider.pac_sources.getD j defaultPacSource := by
          rw [← hcur]
          rfl
        have hok : sourceAttemptError c m.decider.fetch_pac_bytes
            m.decider.current_pac_source = OK := by
          rw [hsrc]
          exact hwin
        obtain ⟨used, hused, hns, hres, heff, evs, hevs⟩ := round_success c m hstart hok
        have hfe : fuel = used + (fuel - used) := by omega
        rw [hfe, runSteps_add, runSteps_none c _ _ hns]
        refine ⟨hns, hres, ?_, evs, hevs⟩
        rw [heff, hsrc]
      · have hlt : m.decider.current_pac_source_index < j := lt_of_le_of_ne hij hcur
        have hfail_cur : sourceAttemptError c m.decider.fetch_pac_bytes
            m.decider.current_pac_source ≠ OK := by
          have hh := hfail m.decider.current_pac_source_index le_rfl hlt
          simpa [ProxyScriptDecider.current_pac_source] using hh
        have hx : ¬ m.decider.pac_sources.length ≤
            m.decider.current_pac_source_index + 1 := by omega
        obtain ⟨used, hused, hns, hidx, hsrcs, hfpb, hcfg, hman, hres, evs0, hevs0⟩ :=
          round_fail_next c m hstart hfail_cur hx
        set m2 := RunSteps c used m with hm2
        have h2start : m2.decider.next_state =
            GetStartState m2.decider.fetch_pac_bytes := by
          rw [hns, hfpb]
        have h2ij : m2.decider.current_pac_source_index ≤ j := by
          rw [hidx]
          omega
        have h2j : j < m2.decider.pac_sources.length := by
          rw [hsrcs]
          exact hj
        have h2k : m2.decider.pac_sources.length -
            m2.decider.current_pac_source_index ≤ k := by
          rw [hidx, hsrcs]
          omega
        have h2fail : ∀ i, m2.decider.current_pac_source_index ≤ i → i < j →
            sourceAttemptError c m2.decider.fetch_pac_bytes
              (m2.decider.pac_sources.getD i defaultPacSource) ≠ OK := by
          intro i hi1 hi2
          rw [hfpb, hsrcs]
          rw [hidx] at hi1
          exact hfail i (by omega) hi2
        have h2win : sourceAttemptError c m2.decider.fetch_pac_bytes
            (m2.decider.pac_sources.getD j defaultPacSource) = OK := by
          rw [hfpb, hsrcs]
          exact hwin
        have hfe : fuel = used + (fuel - used) := by omega
        have h2fuel : 4 * k ≤ fuel - used := by omega
        obtain ⟨hA, hB, hC, evs1, hD⟩ :=
          ih m2 j h2start h2ij h2j h2k h2fail h2win (fuel - used) h2fuel
        rw [hfe, runSteps_add, ← hm2]
        refine ⟨hA, hB, ?_, evs0 ++ evs1, ?_⟩
        · rw [hC, hcfg, hman, hsrcs]
        · rw [hD, hevs0]
          simp

theorem run_warmup (c : Collaborators) (config : ProxyConfig) (wd : Int) (fpb : Bool)
    (h : BuildPacSourcesFallbackList config ≠ []) :
    RunSteps c 2 (Start config wd fpb).2 =
      ⟨{ startedDecider config wd fpb with next_state := GetStartState fpb },
       OK, []⟩ := by
  have hm : (Start config wd fpb).2 =
      ⟨startedDecider config wd fpb, OK, []⟩ := by
    simp [Start, h]
  rw [hm, runSteps_peel_two, step_wait c _ (by simp [startedDecider])]
  rw [runSteps_peel_one, step_wait_complete c _ (by simp)]
  simp [startedDecider]

/-- C5. When every source in the fallback list fails (in fetch or in
verify), the run terminates with the error code of the last attempted
source, that is the attempt error of the final list element, and exactly
that status is what the completion callback receives. -/
theorem all_sources_fail_last_error (config : ProxyConfig) (c : Collaborators)
    (wd : Int) (fpb : Bool)
    (hne : BuildPacSourcesFallbackList config ≠ [])
    (hfail : ∀ s ∈ BuildPacSourcesFallbackList config,
      sourceAttemptError c fpb s ≠ OK)
    (fuel : Nat)
    (hfuel : 2 + 4 * (BuildPacSourcesFallbackList config).length ≤ fuel) :
    (RunSteps c fuel (Start config wd fpb).2).decider.next_state =
      ProxyScriptDecider.State.STATE_NONE ∧
    (RunSteps c fuel (Start config wd fpb).2).result =
      sourceAttemptError c fpb
        ((BuildPacSourcesFallbackList config).getD
          ((BuildPacSourcesFallbackList config).length - 1) defaultPacSource) ∧
    NetLogEvent.CallbackEvent ((RunSteps c fuel (Start config wd fpb).2).result) ∈
      (RunSteps c fuel (Start config wd fpb).2).events := by
  have hw := run_warmup c config wd fpb hne
  have hfe : fuel = 2 + (fuel - 2) := by omega
  rw [hfe, runSteps_add, hw]
  set W : Machine :=
    ⟨{ startedDecider config wd fpb with next_state := GetStartState fpb },
     OK, []⟩ with hW
  have hlen : 0 < (BuildPacSourcesFallbackList config).length :=
    List.length_pos.mpr hne
  have h1 : W.decider.next_state = GetStartState W.decider.fetch_pac_bytes := by
    simp [hW, startedDecider]
  have h2 : W.decider.current_pac_source_index < W.decider.pac_sources.length := by
    simpa [hW, startedDecider] using hlen
  have h3 : W.decider.pac_sources.length - W.decider.current_pac_source_index ≤
      (BuildPacSourcesFallbackList config).length := by
    simp [hW, startedDecider]
  have h4 : ∀ j, W.decider.current_pac_source_index ≤ j →
      j < W.decider.pac_sources.length →
      sourceAttemptError c W.decider.fetch_pac_bytes
        (W.decider.pac_sources.getD j defaultPacSource) ≠ OK := by
    intro j hj1 hj2
    have hj2b : j < (BuildPacSourcesFallbackList config).length := by
      simpa [hW, startedDecider] using hj2
    have hmem : (BuildPacSourcesFallbackList config).getD j defaultPacSource ∈
        BuildPacSourcesFallbackList config := getD_mem_of_lt _ _ _ hj2b
    simpa [hW, startedDecider] using hfail _ hmem
  have h5 : 4 * (BuildPacSourcesFallbackList config).length ≤ fuel - 2 := by omega
  obtain ⟨hA, hB, evs, hC⟩ :=
    run_master_fail c (BuildPacSourcesFallbackList config).length W
      h1 h2 h3 h4 (fuel - 2) h5
  refine ⟨hA, ?_, ?_⟩
  · rw [hB]
    simp [hW, startedDecider]
  · rw [hC]
    simp

theorem run_success_char (config : ProxyConfig) (c : Collaborators) (wd : Int)
    (fpb : Bool) (j fuel : Nat)
    (hj : j < (BuildPacSourcesFallbackList config).length)
    (hfail : ∀ k, k < j → sourceAttemptError c fpb
      ((BuildPacSourcesFallbackList config).getD k defaultPacSource) ≠ OK)
    (hwin : sourceAttemptError c fpb
      ((BuildPacSourcesFallbackList config).getD j defaultPacSource) = OK)
    (hfuel : 2 + 4 * (BuildPacSourcesFallbackList config).length ≤ fuel) :
    (RunSteps c fuel (Start config wd fpb).2).decider.next_state =
      ProxyScriptDecider.State.STATE_NONE ∧
    (RunSteps c fuel (Start config wd fpb).2).result = OK ∧
    (RunSteps c fuel (Start config wd fpb).2).decider.effective_config =
      successEffectiveConfig c config config.pac_mandatory
        ((BuildPacSourcesFallbackList config).getD j defaultPacSource) := by
  have hne : BuildPacSourcesFallbackList config ≠ [] := by
    intro hcon
    rw [hcon] at hj
    simp at hj
  have hw := run_warmup c config wd fpb hne
  have hfe : fuel = 2 + (fuel - 2) := by omega
  rw [hfe, runSteps_add, hw]
  set W : Machine :=
    ⟨{ startedDecider config wd fpb with next_state := GetStartState fpb },
     OK, []⟩ with hW
  have h1 : W.decider.next_state = GetStartState W.decider.fetch_pac_bytes := by
    simp [hW, startedDecider]
  have h2 : W.decider.current_pac_source_index ≤ j := by
    simp [hW, startedDecider]
  have h3 : j < W.decider.pac_sources.length := by
    simpa [hW, startedDecider] using hj
  have h4 : W.decider.pac_sources.length - W.decider.current_pac_source_index ≤
      (BuildPacSourcesFallbackList config).length := by
    simp [hW, startedDecider]
  have h5 : ∀ i, W.decider.current_pac_source_index ≤ i → i < j →
      sourceAttemptError c W.decider.fetch_pac_bytes
        (W.decider.pac_sources.getD i defaultPacSource) ≠ OK := by
    intro i hi1 hi2
    simpa [hW, startedDecider] using hfail i hi2
  have h6 : sourceAttemptError c W.decider.fetch_pac_bytes
      (W.decider.pac_sources.getD j defaultPacSource) = OK := by
    simpa [hW, startedDecider] using hwin
  have h7 : 4 * (BuildPacSourcesFallbackList config).length ≤ fuel - 2 := by omega
  obtain ⟨hA, hB, hC, _⟩ :=
    run_master_success c (BuildPacSourcesFallbackList config).length W j
      h1 h2 h3 h4 h5 h6 (fuel - 2) h7
  refine ⟨hA, hB, ?_⟩
  rw [hC]
  simp [hW, startedDecider]

/-- C7. In every run ending in success with winning source at position j
(all earlier sources fail, source j succeeds), the pac_url of the effective
config equals the URL DetermineURL derives for the winning source: the
source URL for CUSTOM, the canonical WPAD URL for WPAD_DNS, and for
WPAD_DHCP the URL the DHCP fetcher reported on completion. -/
theorem success_effective_pac_url (config : ProxyConfig) (c : Collaborators)
    (wd : Int) (fpb : Bool) (j fuel : Nat)
    (hj : j < (BuildPacSourcesFallbackList config).length)
    (hfail : ∀ k, k < j → sourceAttemptError c fpb
      ((BuildPacSourcesFallbackList config).getD k defaultPacSource) ≠ OK)
    (hwin : sourceAttemptError c fpb
      ((BuildPacSourcesFallbackList config).getD j defaultPacSource) = OK)
    (hfuel : 2 + 4 * (BuildPacSourcesFallbackList config).length ≤ fuel) :
    (RunSteps c fuel (Start config wd fpb).2).result = OK ∧
    (RunSteps c fuel (Start config wd fpb).2).decider.next_state =
      ProxyScriptDecider.State.STATE_NONE ∧
    (RunSteps c fuel (Start config wd fpb).2).decider.effective_config.pac_url =
      (match ((BuildPacSourcesFallbackList config).getD j defaultPacSource).type with
       | PacSourceType.CUSTOM =>
           ((BuildPacSourcesFallbackList config).getD j defaultPacSource).url
       | PacSourceType.WPAD_DNS => kWpadUrl
       | PacSourceType.WPAD_DHCP => c.dhcp_fetch.2.2) := by
  obtain ⟨hA, hB, hC⟩ := run_success_char config c wd fpb j fuel hj hfail hwin hfuel
  refine ⟨hB, hA, ?_⟩
  rw [hC]
  set src := (BuildPacSourcesFallbackList config).getD j defaultPacSource with hsrc
  cases htype : src.type <;> simp [successEffectiveConfig, DetermineURL, htype]

/-- C8. In every run ending in success with winning source at position j,
the effective config is the input config with the manual proxy rules
stripped and exactly one of the two automatic settings resolved: for a
CUSTOM winner auto-detect is off and pac_url is the source URL; for a WPAD
winner auto-detect is on with pac_url the learned URL. Every other input
field, pac_mandatory and the passthrough component included, is carried
into the effective config unchanged. -/
theorem success_effective_config_frame (config : ProxyConfig) (c : Collaborators)
    (wd : Int) (fpb : Bool) (j fuel : Nat)
    (hj : j < (BuildPacSourcesFallbackList config).length)
    (hfail : ∀ k, k < j → sourceAttemptError c fpb
      ((BuildPacSourcesFallbackList config).getD k defaultPacSource) ≠ OK)
    (hwin : sourceAttemptError c fpb
      ((BuildPacSourcesFallbackList config).getD j defaultPacSource) = OK)
    (hfuel : 2 + 4 * (BuildPacSourcesFallbackList config).length ≤ fuel) :
    (RunSteps c fuel (Start config wd fpb).2).decider.effective_config.pac_mandatory =
      config.pac_mandatory ∧
    (RunSteps c fuel (Start config wd fpb).2).decider.effective_config.passthrough =
      config.passthrough ∧
    (RunSteps c fuel (Start config wd fpb).2).decider.effective_config.proxy_rules =
      [] ∧
    (((BuildPacSourcesFallbackList config).getD j defaultPacSource).type =
        PacSourceType.CUSTOM →
      (RunSteps c fuel (Start config wd fpb).2).decider.effective_config.auto_detect =
        false ∧
      (RunSteps c fuel (Start config wd fpb).2).decider.effective_config.pac_url =
        ((BuildPacSourcesFallbackList config).getD j defaultPacSource).url) ∧
    (((BuildPacSourcesFallbackList config).getD j defaultPacSource).type ≠
        PacSourceType.CUSTOM →
      (RunSteps c fuel (Start config wd fpb).2).decider.effective_config.auto_detect =
        true) := by
  obtain ⟨hA, hB, hC⟩ := run_success_char config c wd fpb j fuel hj hfail hwin hfuel
  rw [hC]
  set src := (BuildPacSourcesFallbackList config).getD j defaultPacSource with hsrc
  refine ⟨by simp [successEffectiveConfig], by simp [successEffectiveConfig],
          by simp [successEffectiveConfig], ?_, ?_⟩
  · intro htype
    simp [successEffectiveConfig, DetermineURL, htype]
  · intro htype
    cases hc : src.type <;> simp [successEffectiveConfig, hc] <;> exact absurd hc htype

/-- Concrete config with auto-detect on and a custom PAC URL, for the
witnesses. -/
def cfgBoth : ProxyConfig :=
  { auto_detect := true, pac_url := { spec := "http://custom/pac" },
    pac_mandatory := true, proxy_rules := ["http=proxyA"], passthrough := 7 }

/-- Collaborators whose fetches and validations all fail. -/
def cAllFail : Collaborators :=
  { fetch := fun _ => (-7, ""), dhcp_fetch := (-6, "", { spec := "" }),
    validate := fun _ => -8 }

/-- Collaborators whose fetches and validations all succeed. -/
def cAllOk : Collaborators :=
  { fetch := fun _ => (OK, "FindProxyForURL"),
    dhcp_fetch := (OK, "dhcp script", { spec := "http://dhcp/wpad.dat" }),
    validate := fun _ => OK }

/-- Collaborators for which the DHCP and DNS sources fail and the custom
source succeeds. -/
def cCustomWins : Collaborators :=
  { fetch := fun u => if u = kWpadUrl then (-6, "") else (OK, "FindProxyForURL"),
    dhcp_fetch := (-5, "", { spec := "" }),
    validate := fun _ => OK }

theorem all_sources_fail_last_error_witness :
    (RunSteps cAllFail 14 (Start cfgBoth 0 true).2).result = -7 :=
  (all_sources_fail_last_error cfgBoth cAllFail 0 true (by decide) (by decide)
    14 (by decide)).2.1.trans (by decide)

theorem callback_at_most_once_witness :
    countCallback (RunSteps cAllOk 1 (Start cfgBoth 0 true).2).events = 0 :=
  (callback_at_most_once cfgBoth cAllOk 0 true 1).2 (by decide)

theorem success_effective_pac_url_witness :
    (RunSteps cCustomWins 14 (Start cfgBoth 0 true).2).decider.effective_config.pac_url =
      { spec := "http://custom/pac" } :=
  (success_effective_pac_url cfgBoth cCustomWins 0 true 2 14 (by decide)
    (by decide) (by decide) (by decide)).2.2.trans (by decide)

theorem success_effective_config_frame_witness :
    (RunSteps cAllOk 14 (Start cfgBoth 0 true).2).decider.effective_config.pac_mandatory =
      true :=
  (success_effective_config_frame cfgBoth cAllOk 0 true 0 14 (by decide)
    (by decide) (by decide) (by decide)).1.trans (by decide)

theorem active_state_index_in_range_witness :
    (RunSteps cAllOk 3 (Start cfgBoth 0 true).2).decider.current_pac_source_index <
      (RunSteps cAllOk 3 (Start cfgBoth 0 true).2).decider.pac_sources.length :=
  (active_state_index_in_range cfgBoth cAllOk 0 true 3 (by decide)).1
